import Mathlib

/-!
Verification of the task-status cache and notification fan-out layer of the
budget-management-api repository, against its natural-language specification.

The embedding follows the JavaScript source where it is available:

* `sendTask` is transcribed from the controller code quoted in
  `SIMPLIFICATION_PLAN.md` (both the original 202/pending variant and the
  simplified 201/completed variant, lines 160-209 of that file);
* the task router table is transcribed from `routes/taskRoutes.js`.

The remaining Task Service operations (`checkTaskStatus`, `deleteTask`,
`updateTaskById`) and the websocket broadcast (`broadcastNotification`) are
declared in `routes/taskRoutes.js` and the guides but their controller code is
not in the repository snapshot; those are modelled from the specification text
(sections 4.1 and 4.4) and carry a `Modelled from the spec:` note.

MongoDB object ids are modelled as naturals handed out by a counter; the Redis
cache is an association list from keys to strings; a boolean `cacheOk` selects
between the run where every Redis call succeeds and the run where every Redis
call throws (the failure mode the spec's `CacheError` taxonomy describes).
-/

namespace BudgetApi

/-- A persisted task record, as stored by the Durable Task Store (MongoDB
`Task` model): an id assigned at creation, a description and a status string. -/
structure Task where
  id : Nat
  description : String
  status : String
  deriving DecidableEq, Repr

/-- The Durable Task Store: the saved tasks plus the counter from which the
next `_id` is assigned. -/
structure Store where
  tasks : List Task
  nextId : Nat
  deriving DecidableEq, Repr

/-- The Status Cache (Redis), as an association list from key strings to value
strings; a `set` conses the new binding (shadowing any older one) and reads
take the first binding for the key. -/
def Cache := List (String × String)
  deriving DecidableEq, Repr

/-- The Redis key convention `task:<id>:status` used by the task controller. -/
def cacheKey (id : Nat) : String :=
  "task:" ++ toString id ++ ":status"

/-- Read a key from the cache: first binding wins. -/
def cacheGet (c : Cache) (k : String) : Option String :=
  ((List.find? (fun p => p.1 = k)) c).map (fun p => p.2)

/-- The log line the controller prints when a Redis call throws. -/
def redisErrLog : String := "Redis operation failed"

/-- `redisClient.set` under the health flag: when Redis is up the binding is
written; when Redis throws, the cache is unchanged and the error is logged. -/
def cacheSetOp (cacheOk : Bool) (c : Cache) (k v : String) : Cache × List String :=
  if cacheOk then ((k, v) :: c, []) else (c, [redisErrLog])

/-- `redisClient.del` under the health flag: when Redis is up every binding for
the key is removed; when Redis throws, the cache is unchanged and logged. -/
def cacheDelOp (cacheOk : Bool) (c : Cache) (k : String) : Cache × List String :=
  if cacheOk then (c.filter (fun p => p.1 ≠ k), []) else (c, [redisErrLog])

/-- Look a task up in the Durable Task Store by id. -/
def findTask (st : Store) (id : Nat) : Option Task :=
  st.tasks.find? (fun t => t.id = id)

/-- The error taxonomy of the specification (section 7). -/
inductive TaskError where
  | validation
  | notFound
  | storage
  deriving DecidableEq, Repr

/-- HTTP response bodies produced by the task controller and the error
middleware. -/
inductive RespBody where
  /-- The 201 body of the simplified `sendTask`:
  `{message, taskId, task: savedTask}`. -/
  | created (message : String) (taskId : Nat) (task : Task)
  /-- The 202 body of the original `sendTask`: `{message, taskId}`. -/
  | submitted (message : String) (taskId : Nat)
  /-- A status read: `{status}`. -/
  | statusOf (status : String)
  /-- An updated record. -/
  | updated (task : Task)
  /-- An empty body (successful delete). -/
  | empty
  /-- An error handed to `next(error)` and rendered by the error middleware. -/
  | failure (e : TaskError)
  deriving DecidableEq, Repr

/-- An HTTP response: status code plus body. -/
structure Response where
  code : Nat
  body : RespBody
  deriving DecidableEq, Repr

/-- The response the error middleware renders for each error of the taxonomy
(section 7: validation 400, not-found 404, storage 5xx). -/
def errResponse (e : TaskError) : Response :=
  match e with
  | .validation => { code := 400, body := .failure .validation }
  | .notFound => { code := 404, body := .failure .notFound }
  | .storage => { code := 500, body := .failure .storage }

/-- The observable outcome of one controller call: the HTTP response, the
resulting store and cache, the console log, and the ids looked up in the
Durable Task Store during the call (to state cache-aside properties). -/
structure TaskResult where
  response : Response
  store : Store
  cache : Cache
  log : List String
  storeReads : List Nat
  deriving DecidableEq, Repr

/-- Modelled from the spec: the Mongoose `Task` model (file `models/task.js`,
not in the snapshot) marks `description` required, so `save()` rejects an
empty description with a `ValidationError` before anything is persisted;
otherwise it persists the record under a freshly assigned id. -/
def taskSave (description status : String) (st : Store) : Except TaskError (Task × Store) :=
  if description = "" then
    .error .validation
  else
    let t : Task := { id := st.nextId, description := description, status := status }
    .ok (t, { tasks := st.tasks ++ [t], nextId := st.nextId + 1 })

/-- The simplified `sendTask` from `SIMPLIFICATION_PLAN.md` (replacement code,
lines 186-209): saves the task with status `completed`, best-effort caches
`completed` under `task:<id>:status`, responds `201` with
`{message, taskId, task}`; a save error goes to `next(error)`. -/
def sendTask (description : String) (st : Store) (c : Cache) (cacheOk : Bool) : TaskResult :=
  match taskSave description "completed" st with
  | .error e => { response := errResponse e, store := st, cache := c, log := [], storeReads := [] }
  | .ok (t, st') =>
      let (c', lg) := cacheSetOp cacheOk c (cacheKey t.id) "completed"
      { response := { code := 201, body := .created "Task created successfully" t.id t }
        store := st', cache := c', log := lg, storeReads := [] }

/-- The original `sendTask` from `SIMPLIFICATION_PLAN.md` (current code, lines
160-181): saves the task with status `pending`, best-effort caches `pending`,
hands the task to the queue, responds `202` with `{message, taskId}`. -/
def sendTaskPending (description : String) (st : Store) (c : Cache) (cacheOk : Bool) : TaskResult :=
  match taskSave description "pending" st with
  | .error e => { response := errResponse e, store := st, cache := c, log := [], storeReads := [] }
  | .ok (t, st') =>
      let (c', lg) := cacheSetOp cacheOk c (cacheKey t.id) "pending"
      { response := { code := 202, body := .submitted "Task submitted successfully" t.id }
        store := st', cache := c', log := lg, storeReads := [] }

/-- Modelled from the spec: the controller `checkTaskStatus` (declared in
`routes/taskRoutes.js`, code not in the snapshot), per section 4.1 GetStatus:
try the Status Cache first; on a hit return the cached status; on a miss or a
cache error fall back to the Durable Task Store, repopulate the cache when the
task exists, and return its status; `NotFoundError` when the store misses. -/
def checkTaskStatus (id : Nat) (st : Store) (c : Cache) (cacheOk : Bool) : TaskResult :=
  let readErrLog : List String := if cacheOk then [] else [redisErrLog]
  match (if cacheOk then cacheGet c (cacheKey id) else none) with
  | some v =>
      { response := { code := 200, body := .statusOf v }
        store := st, cache := c, log := readErrLog, storeReads := [] }
  | none =>
      match findTask st id with
      | some t =>
          let (c', lg) := cacheSetOp cacheOk c (cacheKey id) t.status
          { response := { code := 200, body := .statusOf t.status }
            store := st, cache := c', log := readErrLog ++ lg, storeReads := [id] }
      | none =>
          { response := errResponse .notFound
            store := st, cache := c, log := readErrLog, storeReads := [id] }

/-- Modelled from the spec: the controller `deleteTask` (declared in
`routes/taskRoutes.js`, code not in the snapshot), per section 4.1 Delete:
remove the task from the Durable Task Store, then delete the cache entry; a
store failure (`storeOk = false`) or a missing task is surfaced and leaves the
cache untouched; a cache-delete failure is logged and tolerated. -/
def deleteTask (id : Nat) (st : Store) (c : Cache) (storeOk cacheOk : Bool) : TaskResult :=
  if storeOk then
    match findTask st id with
    | none =>
        { response := errResponse .notFound, store := st, cache := c
          log := [], storeReads := [id] }
    | some _ =>
        let st' : Store := { tasks := st.tasks.filter (fun t => t.id ≠ id), nextId := st.nextId }
        let (c', lg) := cacheDelOp cacheOk c (cacheKey id)
        { response := { code := 204, body := .empty }
          store := st', cache := c', log := lg, storeReads := [id] }
  else
    { response := errResponse .storage, store := st, cache := c
      log := [], storeReads := [] }

/-- Modelled from the spec: the controller `updateTaskById` (declared in
`routes/taskRoutes.js`, code not in the snapshot), per section 4.1 Update:
`NotFoundError` when the task does not exist; otherwise apply the new fields
to the Durable Task Store and, when the status changed, overwrite the cache
entry with the new status (a cache failure is logged and tolerated). -/
def updateTaskById (id : Nat) (newDescription newStatus : Option String)
    (st : Store) (c : Cache) (cacheOk : Bool) : TaskResult :=
  match findTask st id with
  | none =>
      { response := errResponse .notFound, store := st, cache := c
        log := [], storeReads := [id] }
  | some t =>
      let t' : Task :=
        { id := t.id, description := newDescription.getD t.description
          status := newStatus.getD t.status }
      let st' : Store :=
        { tasks := st.tasks.map (fun u => if u.id = id then t' else u), nextId := st.nextId }
      let (c', lg) :=
        if t'.status ≠ t.status then cacheSetOp cacheOk c (cacheKey id) t'.status else (c, [])
      { response := { code := 200, body := .updated t' }
        store := st', cache := c', log := lg, storeReads := [id] }

/-- A websocket connection in the Connection Registry: an opaque handle and
its liveness flag (the `ws` readyState collapsed to open-or-not). -/
structure Conn where
  id : Nat
  isOpen : Bool
  deriving DecidableEq, Repr

/-- The outcome of a broadcast: the ids the message was delivered to (in
snapshot order), the registry after the call, and whether the call returned
normally to its caller. -/
structure BroadcastResult where
  delivered : List Nat
  registry : List Conn
  ok : Bool
  deriving DecidableEq, Repr

/-- Modelled from the spec: `broadcastNotification` in
`services/websocketService.js` (required by `LEARNING_GUIDE.md`, code not in
the snapshot), per section 4.4: snapshot the Connection Registry, attempt
delivery to each open connection independently; a per-connection failure
(`failing` true for that handle) is isolated — delivery to the others
proceeds, the failed connection is removed from the registry, and the caller
still gets a normal return. Closed connections are skipped; nothing is queued. -/
def broadcastNotification (message : String) (reg : List Conn) (failing : Nat → Bool) :
    BroadcastResult :=
  let _ := message
  { delivered := (reg.filter (fun cn => cn.isOpen && !failing cn.id)).map (fun cn => cn.id)
    registry := reg.filter (fun cn => !failing cn.id)
    ok := true }

/-- The handlers the task router wires up (`routes/taskRoutes.js`, line 2). -/
inductive Handler where
  | sendTaskH
  | checkTaskStatusH
  | deleteTaskH
  | getAllTasksH
  | updateTaskByIdH
  deriving DecidableEq, Repr

/-- The middleware stack entries used by the task router. -/
inductive Middleware where
  | authenticate
  deriving DecidableEq, Repr

/-- One registered route: HTTP method, path pattern, middleware, handler. -/
structure Route where
  method : String
  path : String
  middleware : List Middleware
  handler : Handler
  deriving DecidableEq, Repr

/-- The task router table, transcribed from `routes/taskRoutes.js` lines 7-21
in registration order. -/
def taskRouter : List Route :=
  [ { method := "POST", path := "/", middleware := [.authenticate], handler := .sendTaskH }
  , { method := "POST", path := "/tasks", middleware := [.authenticate], handler := .sendTaskH }
  , { method := "GET", path := "/:id", middleware := [.authenticate], handler := .checkTaskStatusH }
  , { method := "DELETE", path := "/:id", middleware := [.authenticate], handler := .deleteTaskH }
  , { method := "GET", path := "/", middleware := [.authenticate], handler := .getAllTasksH }
  , { method := "PUT", path := "/:id", middleware := [.authenticate], handler := .updateTaskByIdH } ]

/-- Express route matching: the first registered route whose method matches
and whose path pattern matches the request path (a `/:id` pattern matches any
single non-empty segment, a literal pattern matches itself). -/
def pathMatches (pattern reqPath : String) : Bool :=
  if pattern = "/:id" then
    reqPath ≠ "/" && reqPath.startsWith "/" && !(reqPath.drop 1).contains '/'
  else
    pattern = reqPath

/-- Route dispatch: the first matching route in registration order. -/
def findRoute (method reqPath : String) : Option Route :=
  taskRouter.find? (fun r => r.method = method && pathMatches r.path reqPath)

/-- The task-creation semantics a handler runs once dispatched (only
`sendTaskH` is needed for the routing claim; the others are opaque to it). -/
def runCreateHandler (h : Handler) (description : String) (st : Store) (c : Cache)
    (cacheOk : Bool) : Option TaskResult :=
  match h with
  | .sendTaskH => some (sendTask description st c cacheOk)
  | _ => none

/-! ## Theorems -/

/-- A freshly written binding is the one a cache read returns. -/
lemma cacheGet_cons_self (c : Cache) (k v : String) : cacheGet ((k, v) :: c) k = some v := by
  simp [cacheGet]

/-- C1: For every non-empty description, Create persists a new Task whose
status is `completed` under the simplified policy (`pending` under the
pending-policy variant), writes that same status string into the Status Cache
under the key `task:<id>:status`, and returns the created Task; the HTTP
response is 201 with the task id (202 carrying the task id under the
pending-policy variant). -/
theorem create_persists_caches_responds (d : String) (st : Store) (c : Cache)
    (hd : d ≠ "") :
    ((sendTask d st c true).store.tasks
        = st.tasks ++ [{ id := st.nextId, description := d, status := "completed" }] ∧
      cacheGet (sendTask d st c true).cache (cacheKey st.nextId) = some "completed" ∧
      (sendTask d st c true).response
        = { code := 201, body := .created "Task created successfully" st.nextId
              { id := st.nextId, description := d, status := "completed" } }) ∧
    ((sendTaskPending d st c true).store.tasks
        = st.tasks ++ [{ id := st.nextId, description := d, status := "pending" }] ∧
      cacheGet (sendTaskPending d st c true).cache (cacheKey st.nextId) = some "pending" ∧
      (sendTaskPending d st c true).response
        = { code := 202, body := .submitted "Task submitted successfully" st.nextId }) := by
  refine ⟨⟨?_, ?_, ?_⟩, ⟨?_, ?_, ?_⟩⟩ <;>
    simp [sendTask, sendTaskPending, taskSave, hd, cacheSetOp, cacheGet]

/-- Witness for C1 at the spec's scenario input "generate report" on the empty
store and cache. -/
theorem create_persists_caches_responds_witness :
    ((sendTask "generate report" { tasks := [], nextId := 0 } [] true).store.tasks
        = [{ id := 0, description := "generate report", status := "completed" }] ∧
      cacheGet (sendTask "generate report" { tasks := [], nextId := 0 } [] true).cache
          (cacheKey 0) = some "completed" ∧
      (sendTask "generate report" { tasks := [], nextId := 0 } [] true).response
        = { code := 201, body := .created "Task created successfully" 0
              { id := 0, description := "generate report", status := "completed" } }) ∧
    ((sendTaskPending "generate report" { tasks := [], nextId := 0 } [] true).store.tasks
        = [{ id := 0, description := "generate report", status := "pending" }] ∧
      cacheGet (sendTaskPending "generate report" { tasks := [], nextId := 0 } [] true).cache
          (cacheKey 0) = some "pending" ∧
      (sendTaskPending "generate report" { tasks := [], nextId := 0 } [] true).response
        = { code := 202, body := .submitted "Task submitted successfully" 0 }) :=
  create_persists_caches_responds "generate report" { tasks := [], nextId := 0 } []
    (by decide)

/-- C8: Create on an empty description fails with a ValidationError and writes
nothing to the Durable Task Store or the Status Cache, under both policy
variants and whether or not the cache is healthy. -/
theorem create_empty_description_rejected (st : Store) (c : Cache) (cacheOk : Bool) :
    (sendTask "" st c cacheOk).response = errResponse .validation ∧
    (sendTask "" st c cacheOk).store = st ∧
    (sendTask "" st c cacheOk).cache = c ∧
    (sendTaskPending "" st c cacheOk).response = errResponse .validation ∧
    (sendTaskPending "" st c cacheOk).store = st ∧
    (sendTaskPending "" st c cacheOk).cache = c := by
  refine ⟨?_, ?_, ?_, ?_, ?_, ?_⟩ <;> simp [sendTask, sendTaskPending, taskSave]

/-- C9: For any fixed request body and store state, the HTTP response and the
resulting store of `sendTask` are identical in the run where the Redis cache
write succeeds and in the run where it throws; only the log and the cache
contents can differ. -/
theorem sendTask_response_independent_of_cache (d : String) (st : Store) (c : Cache) :
    (sendTask d st c true).response = (sendTask d st c false).response ∧
    (sendTask d st c true).store = (sendTask d st c false).store := by
  cases h : taskSave d "completed" st <;> simp [sendTask, h, cacheSetOp]

/-- C10: The task router registers the same `sendTask` handler behind the same
`authenticate` middleware for both POST `/` and POST `/tasks`, so the two
mounted paths dispatch to identical task-creation behavior for every request
body and state. -/
theorem router_same_handler_for_both_posts :
    findRoute "POST" "/"
      = some { method := "POST", path := "/", middleware := [.authenticate]
               handler := .sendTaskH } ∧
    findRoute "POST" "/tasks"
      = some { method := "POST", path := "/tasks", middleware := [.authenticate]
               handler := .sendTaskH } ∧
    ∀ d st c cacheOk,
      (findRoute "POST" "/").map (fun r => runCreateHandler r.handler d st c cacheOk)
        = (findRoute "POST" "/tasks").map (fun r => runCreateHandler r.handler d st c cacheOk) :=
  ⟨rfl, rfl, fun _ _ _ _ => rfl⟩

/-- C4: For every valid (non-empty) description, Create followed immediately
by GetStatus on the returned id yields exactly the status string Create
reported, from every starting state of the store and the cache, under both
policy variants. -/
theorem create_then_getStatus_agrees (d : String) (st : Store) (c : Cache)
    (hd : d ≠ "") :
    (checkTaskStatus st.nextId (sendTask d st c true).store
        (sendTask d st c true).cache true).response
      = { code := 200, body := .statusOf "completed" } ∧
    (checkTaskStatus st.nextId (sendTaskPending d st c true).store
        (sendTaskPending d st c true).cache true).response
      = { code := 200, body := .statusOf "pending" } := by
  constructor <;>
    simp [sendTask, sendTaskPending, taskSave, hd, cacheSetOp, checkTaskStatus, cacheGet]

/-- Witness for C4 at the spec's scenario input "generate report" on the empty
store and cache. -/
theorem create_then_getStatus_agrees_witness :
    (checkTaskStatus 0 (sendTask "generate report" { tasks := [], nextId := 0 } [] true).store
        (sendTask "generate report" { tasks := [], nextId := 0 } [] true).cache true).response
      = { code := 200, body := .statusOf "completed" } ∧
    (checkTaskStatus 0
        (sendTaskPending "generate report" { tasks := [], nextId := 0 } [] true).store
        (sendTaskPending "generate report" { tasks := [], nextId := 0 } [] true).cache
        true).response
      = { code := 200, body := .statusOf "pending" } :=
  create_then_getStatus_agrees "generate report" { tasks := [], nextId := 0 } [] (by decide)

/-- Counterexample to C2 as stated: in a (reachable) state where the cache
holds a stale status — produced here by Create("report") and then an Update to
status "failed" whose cache write threw — GetStatus in the run where the cache
read throws returns the store's status "failed", while the run where the cache
read succeeds returns the stale cached "completed": the cache-error run's
result is NOT the same as the cache-success run's. -/
theorem getStatus_cache_error_changes_result :
    (updateTaskById 0 none (some "failed")
        (sendTask "report" { tasks := [], nextId := 0 } [] true).store
        (sendTask "report" { tasks := [], nextId := 0 } [] true).cache false).store
      = { tasks := [{ id := 0, description := "report", status := "failed" }], nextId := 1 } ∧
    (updateTaskById 0 none (some "failed")
        (sendTask "report" { tasks := [], nextId := 0 } [] true).store
        (sendTask "report" { tasks := [], nextId := 0 } [] true).cache false).cache
      = [(cacheKey 0, "completed")] ∧
    (checkTaskStatus 0
        { tasks := [{ id := 0, description := "report", status := "failed" }], nextId := 1 }
        [(cacheKey 0, "completed")] false).response
      = { code := 200, body := .statusOf "failed" } ∧
    (checkTaskStatus 0
        { tasks := [{ id := 0, description := "report", status := "failed" }], nextId := 1 }
        [(cacheKey 0, "completed")] true).response
      = { code := 200, body := .statusOf "completed" } := by
  refine ⟨?_, ?_, ?_, ?_⟩ <;> decide

/-- C2 (amended): For every Task Service operation, an error raised by the
Status Cache is never surfaced to the caller: the operation's response and
resulting store state are what the cache-success run produces — for GetStatus,
what the run where the cache read misses produces, the status then coming from
the Durable Task Store — and everything the cache-error run logs is the cache
error itself. -/
theorem cache_error_never_surfaced (d : String) (id : Nat) (nd ns : Option String)
    (st : Store) (c : Cache) :
    ((sendTask d st c false).response = (sendTask d st c true).response ∧
      (sendTask d st c false).store = (sendTask d st c true).store ∧
      (sendTask d st c false).log.all (fun e => e = redisErrLog) = true) ∧
    ((checkTaskStatus id st c false).response = (checkTaskStatus id st [] true).response ∧
      (checkTaskStatus id st c false).store = st ∧
      (checkTaskStatus id st c false).log.all (fun e => e = redisErrLog) = true) ∧
    ((updateTaskById id nd ns st c false).response
        = (updateTaskById id nd ns st c true).response ∧
      (updateTaskById id nd ns st c false).store = (updateTaskById id nd ns st c true).store ∧
      (updateTaskById id nd ns st c false).log.all (fun e => e = redisErrLog) = true) ∧
    ((deleteTask id st c true false).response = (deleteTask id st c true true).response ∧
      (deleteTask id st c true false).store = (deleteTask id st c true true).store ∧
      (deleteTask id st c true false).log.all (fun e => e = redisErrLog) = true) := by
  refine ⟨⟨?_, ?_, ?_⟩, ⟨?_, ?_, ?_⟩, ⟨?_, ?_, ?_⟩, ⟨?_, ?_, ?_⟩⟩
  · cases h : taskSave d "completed" st <;> simp [sendTask, h, cacheSetOp]
  · cases h : taskSave d "completed" st <;> simp [sendTask, h, cacheSetOp]
  · cases h : taskSave d "completed" st <;> simp [sendTask, h, cacheSetOp, redisErrLog]
  · cases h : findTask st id <;> simp [checkTaskStatus, h, cacheSetOp, cacheGet]
  · cases h : findTask st id <;> simp [checkTaskStatus, h, cacheSetOp]
  · cases h : findTask st id <;> simp [checkTaskStatus, h, cacheSetOp, redisErrLog]
  · cases h : findTask st id <;> simp [updateTaskById, h, cacheSetOp]
  · cases h : findTask st id <;> simp [updateTaskById, h, cacheSetOp]
  · cases h : findTask st id
    · simp [updateTaskById, h]
    · simp [updateTaskById, h, cacheSetOp, redisErrLog]
      split <;> simp
  · cases h : findTask st id <;> simp [deleteTask, h, cacheDelOp]
  · cases h : findTask st id <;> simp [deleteTask, h, cacheDelOp]
  · cases h : findTask st id <;> simp [deleteTask, h, cacheDelOp, redisErrLog]

/-- Counterexample to C3 as stated, in two parts. First, a stale "ghost"
cache entry for a deleted task — produced here by Create("report") followed
by a Delete whose cache delete threw — makes GetStatus answer 200 with the
stale status even though the Durable Task Store has no task with that id, so
GetStatus does NOT fail with NotFoundError exactly when the store misses.
Second, on the cache-ERROR fallback the repopulation write throws as well:
GetStatus still returns the store's status but leaves the cache unchanged, so
the immediately following GetStatus is NOT answered from the cache alone — it
reads the store again. -/
theorem getStatus_claim_counterexample :
    (checkTaskStatus 0
        { tasks := [{ id := 0, description := "report", status := "completed" }], nextId := 1 }
        [] false).response = { code := 200, body := .statusOf "completed" } ∧
    (checkTaskStatus 0
        { tasks := [{ id := 0, description := "report", status := "completed" }], nextId := 1 }
        [] false).cache = [] ∧
    (checkTaskStatus 0
        { tasks := [{ id := 0, description := "report", status := "completed" }], nextId := 1 }
        (checkTaskStatus 0
          { tasks := [{ id := 0, description := "report", status := "completed" }], nextId := 1 }
          [] false).cache true).storeReads = [0] ∧
    findTask (deleteTask 0
        (sendTask "report" { tasks := [], nextId := 0 } [] true).store
        (sendTask "report" { tasks := [], nextId := 0 } [] true).cache true false).store 0
      = none ∧
    (deleteTask 0
        (sendTask "report" { tasks := [], nextId := 0 } [] true).store
        (sendTask "report" { tasks := [], nextId := 0 } [] true).cache true false).cache
      = [(cacheKey 0, "completed")] ∧
    (checkTaskStatus 0
        (deleteTask 0
          (sendTask "report" { tasks := [], nextId := 0 } [] true).store
          (sendTask "report" { tasks := [], nextId := 0 } [] true).cache true false).store
        (deleteTask 0
          (sendTask "report" { tasks := [], nextId := 0 } [] true).store
          (sendTask "report" { tasks := [], nextId := 0 } [] true).cache true false).cache
        true).response
      = { code := 200, body := .statusOf "completed" } := by
  refine ⟨?_, ?_, ?_, ?_, ?_, ?_⟩ <;> decide

/-- C3 (amended): GetStatus follows the cache-aside policy: on a cache hit it
returns the cached status without touching the store; on a cache miss or
cache error it reads the task's status from the store and, when the task
exists, attempts the write-back and returns the status — after a miss the
write-back succeeds, so the immediately following GetStatus is answered from
the cache alone, while after a cache error the write-back throws as well and
is only logged, leaving the cache unchanged; and it fails with NotFoundError
exactly when the Durable Task Store has no task with that id and the cache
read produced no value — the read errored or the cache holds no entry for
that id (a stale ghost entry for a deleted id answers a healthy read instead,
per the documented §9 policy). -/
theorem getStatus_cache_aside (id : Nat) (st : Store) (c : Cache) :
    (∀ v, cacheGet c (cacheKey id) = some v →
        (checkTaskStatus id st c true).response = { code := 200, body := .statusOf v } ∧
        (checkTaskStatus id st c true).storeReads = [] ∧
        (checkTaskStatus id st c true).cache = c) ∧
    (∀ t, cacheGet c (cacheKey id) = none → findTask st id = some t →
        (checkTaskStatus id st c true).response = { code := 200, body := .statusOf t.status } ∧
        (checkTaskStatus id st c true).storeReads = [id] ∧
        cacheGet (checkTaskStatus id st c true).cache (cacheKey id) = some t.status ∧
        (checkTaskStatus id st (checkTaskStatus id st c true).cache true).response
          = { code := 200, body := .statusOf t.status } ∧
        (checkTaskStatus id st (checkTaskStatus id st c true).cache true).storeReads = []) ∧
    (∀ t, findTask st id = some t →
        (checkTaskStatus id st c false).response = { code := 200, body := .statusOf t.status } ∧
        (checkTaskStatus id st c false).storeReads = [id] ∧
        (checkTaskStatus id st c false).cache = c ∧
        (checkTaskStatus id st c false).log.all (fun e => e = redisErrLog) = true) ∧
    (∀ cacheOk, (checkTaskStatus id st c cacheOk).response = errResponse .notFound ↔
        (findTask st id = none ∧
          (cacheOk = false ∨ cacheGet c (cacheKey id) = none))) := by
  refine ⟨?_, ?_, ?_, ?_⟩
  · intro v hv
    simp [checkTaskStatus, hv]
  · intro t hv ht
    simp [checkTaskStatus, hv, ht, cacheSetOp, cacheGet_cons_self]
  · intro t ht
    simp [checkTaskStatus, ht, cacheSetOp, redisErrLog]
  · intro cacheOk
    cases cacheOk with
    | false =>
        cases ht : findTask st id with
        | some t => simp [checkTaskStatus, ht, cacheSetOp, errResponse]
        | none => simp [checkTaskStatus, ht, errResponse]
    | true =>
        cases hv : cacheGet c (cacheKey id) with
        | some v => simp [checkTaskStatus, hv, errResponse]
        | none =>
            cases ht : findTask st id with
            | some t => simp [checkTaskStatus, hv, ht, cacheSetOp, errResponse]
            | none => simp [checkTaskStatus, hv, ht, errResponse]

/-- Witness for C3 (amended): a hit on a one-entry cache, a miss that
repopulates from a one-task store, a cache-error fallback that returns the
store's status and leaves a stale entry in place, and the not-found
equivalence both on the empty state and in a cache-error run with an entry
present. -/
theorem getStatus_cache_aside_witness :
    ((checkTaskStatus 3 { tasks := [], nextId := 0 } [(cacheKey 3, "pending")] true).response
        = { code := 200, body := .statusOf "pending" } ∧
      (checkTaskStatus 3 { tasks := [], nextId := 0 } [(cacheKey 3, "pending")] true).storeReads
        = [] ∧
      (checkTaskStatus 3 { tasks := [], nextId := 0 } [(cacheKey 3, "pending")] true).cache
        = [(cacheKey 3, "pending")]) ∧
    ((checkTaskStatus 3
        { tasks := [{ id := 3, description := "d", status := "completed" }], nextId := 4 }
        [] true).response = { code := 200, body := .statusOf "completed" } ∧
      (checkTaskStatus 3
        { tasks := [{ id := 3, description := "d", status := "completed" }], nextId := 4 }
        [] true).storeReads = [3] ∧
      cacheGet (checkTaskStatus 3
        { tasks := [{ id := 3, description := "d", status := "completed" }], nextId := 4 }
        [] true).cache (cacheKey 3) = some "completed") ∧
    ((checkTaskStatus 3
        { tasks := [{ id := 3, description := "d", status := "completed" }], nextId := 4 }
        [(cacheKey 3, "stale")] false).response
        = { code := 200, body := .statusOf "completed" } ∧
      (checkTaskStatus 3
        { tasks := [{ id := 3, description := "d", status := "completed" }], nextId := 4 }
        [(cacheKey 3, "stale")] false).cache = [(cacheKey 3, "stale")]) ∧
    ((checkTaskStatus 3 { tasks := [], nextId := 0 } [] true).response
      = errResponse .notFound) ∧
    ((checkTaskStatus 3 { tasks := [], nextId := 0 } [(cacheKey 3, "stale")] false).response
      = errResponse .notFound) := by
  have h1 := (getStatus_cache_aside 3 { tasks := [], nextId := 0 }
    [(cacheKey 3, "pending")]).1 "pending" (by decide)
  have h2 := (getStatus_cache_aside 3
    { tasks := [{ id := 3, description := "d", status := "completed" }], nextId := 4 } []).2.1
    { id := 3, description := "d", status := "completed" } (by decide) (by decide)
  have h3 := (getStatus_cache_aside 3
    { tasks := [{ id := 3, description := "d", status := "completed" }], nextId := 4 }
    [(cacheKey 3, "stale")]).2.2.1
    { id := 3, description := "d", status := "completed" } (by decide)
  have h4 := ((getStatus_cache_aside 3 { tasks := [], nextId := 0 } []).2.2.2 true).mpr
    ⟨by decide, Or.inr (by decide)⟩
  have h5 := ((getStatus_cache_aside 3 { tasks := [], nextId := 0 }
    [(cacheKey 3, "stale")]).2.2.2 false).mpr ⟨by decide, Or.inl rfl⟩
  exact ⟨⟨h1.1, h1.2.1, h1.2.2⟩, ⟨h2.1, h2.2.1, h2.2.2.1⟩, ⟨h3.1, h3.2.2.1⟩, h4, h5⟩

/-- C5: Delete removes the task from the Durable Task Store and deletes the
cache entry `task:<id>:status`; if the store delete fails (a storage error, or
no such task) the cache entry is left unchanged; and after a successful Delete
a subsequent GetStatus fails with NotFoundError. -/
theorem delete_removes_and_clears (id : Nat) (st : Store) (c : Cache) :
    (∀ t, findTask st id = some t →
        findTask (deleteTask id st c true true).store id = none ∧
        cacheGet (deleteTask id st c true true).cache (cacheKey id) = none ∧
        (checkTaskStatus id (deleteTask id st c true true).store
            (deleteTask id st c true true).cache true).response = errResponse .notFound) ∧
    ((deleteTask id st c false true).cache = c ∧
      (deleteTask id st c false true).store = st ∧
      (deleteTask id st c false true).response = errResponse .storage) ∧
    (findTask st id = none →
        (deleteTask id st c true true).cache = c ∧
        (deleteTask id st c true true).response = errResponse .notFound) := by
  refine ⟨?_, ?_, ?_⟩
  · intro t ht
    have hst : findTask
        { tasks := st.tasks.filter (fun u => !decide (u.id = id)), nextId := st.nextId } id
          = none := by
      simp [findTask, List.find?_eq_none, List.mem_filter]
    have hc : cacheGet (c.filter (fun p => !decide (p.1 = cacheKey id))) (cacheKey id)
        = none := by
      simp [cacheGet, List.find?_eq_none, List.mem_filter]
    refine ⟨?_, ?_, ?_⟩
    · simpa [deleteTask, ht, cacheDelOp] using hst
    · simpa [deleteTask, ht, cacheDelOp] using hc
    · simp [deleteTask, ht, cacheDelOp, checkTaskStatus, hc, hst, errResponse]
  · simp [deleteTask]
  · intro ht
    simp [deleteTask, ht]

/-- Witness for C5 on a one-task store whose status is cached. -/
theorem delete_removes_and_clears_witness :
    findTask (deleteTask 5
        { tasks := [{ id := 5, description := "d", status := "completed" }], nextId := 6 }
        [(cacheKey 5, "completed")] true true).store 5 = none ∧
    cacheGet (deleteTask 5
        { tasks := [{ id := 5, description := "d", status := "completed" }], nextId := 6 }
        [(cacheKey 5, "completed")] true true).cache (cacheKey 5) = none ∧
    (checkTaskStatus 5
        (deleteTask 5
          { tasks := [{ id := 5, description := "d", status := "completed" }], nextId := 6 }
          [(cacheKey 5, "completed")] true true).store
        (deleteTask 5
          { tasks := [{ id := 5, description := "d", status := "completed" }], nextId := 6 }
          [(cacheKey 5, "completed")] true true).cache true).response
      = errResponse .notFound :=
  (delete_removes_and_clears 5
      { tasks := [{ id := 5, description := "d", status := "completed" }], nextId := 6 }
      [(cacheKey 5, "completed")]).1
    { id := 5, description := "d", status := "completed" } (by decide)

/-- C6: Broadcast delivers the message exactly once to every connection open
at the moment of the call, zero times to every connection already closed
before the call, and zero times to any client not in the registry (nothing is
queued for absent clients), provided the registry holds distinct handles. -/
theorem broadcast_delivers_exactly_once (m : String) (reg : List Conn)
    (hnd : (reg.map Conn.id).Nodup) :
    (∀ cn ∈ reg, cn.isOpen = true →
        (broadcastNotification m reg (fun _ => false)).delivered.count cn.id = 1) ∧
    (∀ cn ∈ reg, cn.isOpen = false →
        (broadcastNotification m reg (fun _ => false)).delivered.count cn.id = 0) ∧
    (∀ i, i ∉ reg.map Conn.id →
        (broadcastNotification m reg (fun _ => false)).delivered.count i = 0) := by
  have hsub : ((reg.filter (fun cn => cn.isOpen)).map Conn.id).Sublist (reg.map Conn.id) :=
    (List.filter_sublist reg).map Conn.id
  have hnd2 : ((reg.filter (fun cn => cn.isOpen)).map Conn.id).Nodup := hnd.sublist hsub
  refine ⟨?_, ?_, ?_⟩
  · intro cn hcn hopen
    have hmem : cn.id ∈ (reg.filter (fun cn => cn.isOpen)).map Conn.id :=
      List.mem_map_of_mem _ (List.mem_filter.mpr ⟨hcn, hopen⟩)
    simpa [broadcastNotification] using List.count_eq_one_of_mem hnd2 hmem
  · intro cn hcn hclosed
    have hnotmem : cn.id ∉ (reg.filter (fun u => u.isOpen)).map Conn.id := by
      intro hmem
      obtain ⟨u, hu, huid⟩ := List.mem_map.mp hmem
      obtain ⟨hureg, huopen⟩ := List.mem_filter.mp hu
      have heq : u = cn := List.inj_on_of_nodup_map hnd hureg hcn huid
      rw [heq] at huopen
      rw [hclosed] at huopen
      exact Bool.false_ne_true huopen
    simpa [broadcastNotification] using List.count_eq_zero_of_not_mem hnotmem
  · intro i hi
    have hnotmem : i ∉ (reg.filter (fun u => u.isOpen)).map Conn.id :=
      fun hmem => hi (hsub.subset hmem)
    simpa [broadcastNotification] using List.count_eq_zero_of_not_mem hnotmem

/-- Witness for C6: one open and one closed connection with distinct handles;
the open one receives the message once, the closed one and an unregistered
client receive nothing. -/
theorem broadcast_delivers_exactly_once_witness :
    (broadcastNotification "budget exceeded" [{ id := 1, isOpen := true },
        { id := 2, isOpen := false }] (fun _ => false)).delivered.count 1 = 1 ∧
    (broadcastNotification "budget exceeded" [{ id := 1, isOpen := true },
        { id := 2, isOpen := false }] (fun _ => false)).delivered.count 2 = 0 ∧
    (broadcastNotification "budget exceeded" [{ id := 1, isOpen := true },
        { id := 2, isOpen := false }] (fun _ => false)).delivered.count 3 = 0 :=
  ⟨(broadcast_delivers_exactly_once "budget exceeded"
      [{ id := 1, isOpen := true }, { id := 2, isOpen := false }] (by decide)).1
      { id := 1, isOpen := true } (by decide) (by decide),
   (broadcast_delivers_exactly_once "budget exceeded"
      [{ id := 1, isOpen := true }, { id := 2, isOpen := false }] (by decide)).2.1
      { id := 2, isOpen := false } (by decide) (by decide),
   (broadcast_delivers_exactly_once "budget exceeded"
      [{ id := 1, isOpen := true }, { id := 2, isOpen := false }] (by decide)).2.2
      3 (by decide)⟩

/-- A per-connection failure does not change how often any non-failing client
is delivered to, compared with the failure-free broadcast. -/
lemma count_delivered_of_not_failing (failing : Nat → Bool) (i : Nat)
    (hf : failing i = false) :
    ∀ reg : List Conn,
      ((reg.filter (fun cn => cn.isOpen && !failing cn.id)).map Conn.id).count i
        = ((reg.filter (fun cn => cn.isOpen)).map Conn.id).count i := by
  intro reg
  induction reg with
  | nil => rfl
  | cons cn tl ih =>
    by_cases hid : cn.id = i
    · have hfc : failing cn.id = false := by rw [hid]; exact hf
      cases hopen : cn.isOpen <;>
        simp [List.filter_cons, hopen, hfc, hf, List.count_cons, hid, ih]
    · cases hopen : cn.isOpen <;> cases hfc : failing cn.id <;>
        simp [List.filter_cons, hopen, hfc, List.count_cons, hid, ih]

/-- C7: A delivery failure on any single connection is isolated: the broadcast
caller still gets a normal return, every open non-failing snapshotted
connection is still delivered to — exactly as often as in the failure-free
broadcast — and the failed connection is removed from the Connection
Registry (which otherwise keeps exactly the non-failing connections). -/
theorem broadcast_failure_isolated (m : String) (reg : List Conn) (failing : Nat → Bool) :
    (broadcastNotification m reg failing).ok = true ∧
    (∀ cn ∈ reg, cn.isOpen = true → failing cn.id = false →
        cn.id ∈ (broadcastNotification m reg failing).delivered) ∧
    (∀ i, failing i = false →
        (broadcastNotification m reg failing).delivered.count i
          = (broadcastNotification m reg (fun _ => false)).delivered.count i) ∧
    (∀ cn ∈ reg, failing cn.id = true →
        cn ∉ (broadcastNotification m reg failing).registry) ∧
    (broadcastNotification m reg failing).registry
      = reg.filter (fun cn => !failing cn.id) := by
  refine ⟨rfl, ?_, ?_, ?_, rfl⟩
  · intro cn hcn hopen hf
    exact List.mem_map_of_mem _ (List.mem_filter.mpr ⟨hcn, by simp [hopen, hf]⟩)
  · intro i hf
    simpa [broadcastNotification] using count_delivered_of_not_failing failing i hf reg
  · intro cn hcn hf hmem
    simp only [broadcastNotification] at hmem
    have hcond := (List.mem_filter.mp hmem).2
    simp [hf] at hcond

/-- Witness for C7: two open connections where delivery to handle 2 fails; the
caller sees a normal return, handle 1 is still delivered to, and handle 2 is
removed from the registry. -/
theorem broadcast_failure_isolated_witness :
    (broadcastNotification "budget exceeded"
        [{ id := 1, isOpen := true }, { id := 2, isOpen := true }] (fun i => i == 2)).ok
      = true ∧
    1 ∈ (broadcastNotification "budget exceeded"
        [{ id := 1, isOpen := true }, { id := 2, isOpen := true }] (fun i => i == 2)).delivered ∧
    ({ id := 2, isOpen := true } : Conn) ∉
      (broadcastNotification "budget exceeded"
        [{ id := 1, isOpen := true }, { id := 2, isOpen := true }] (fun i => i == 2)).registry :=
  ⟨(broadcast_failure_isolated "budget exceeded"
      [{ id := 1, isOpen := true }, { id := 2, isOpen := true }] (fun i => i == 2)).1,
   (broadcast_failure_isolated "budget exceeded"
      [{ id := 1, isOpen := true }, { id := 2, isOpen := true }] (fun i => i == 2)).2.1
      { id := 1, isOpen := true } (by decide) (by decide) (by decide),
   (broadcast_failure_isolated "budget exceeded"
      [{ id := 1, isOpen := true }, { id := 2, isOpen := true }] (fun i => i == 2)).2.2.2.1
      { id := 2, isOpen := true } (by decide) (by decide)⟩

end BudgetApi
